import Mathlib

/-!
Shallow embedding of the webshop backend (FastAPI + SQLAlchemy) for
verification of its specification claims.

Conventions of the embedding:
* The relational store (tables `users, products, orders, order_items,
  reviews`) is a record of lists of rows; `id` columns are primary keys.
* SQLAlchemy `Float` money columns are modelled as `ℚ`; `Integer`
  columns as `Int` or `Nat` following their use in the source.
* `datetime` values are abstracted to the projections the code extracts
  from them: an absolute ordinal (for comparisons and `max`) together
  with the `strftime` fields `%Y-%m`, `%w` and `%H` that the analytics
  queries group by.
* A handler raising `HTTPException` is modelled as `Except ApiError`,
  where `ApiError` carries the HTTP status code and detail string.
-/

namespace Webshop

/-- `enum.Enum` `UserRole` from `src/app/models.py`. -/
inductive UserRole
  | ADMINISTRATOR
  | CUSTOMER
deriving DecidableEq, Repr

/-- `HTTPException(status_code, detail)` as raised by the routers. -/
structure ApiError where
  status : Nat
  detail : String
deriving DecidableEq, Repr

/-- A `datetime` value, abstracted to the projections the code reads:
`abs` is an absolute ordinal (used for `<=` comparisons and `func.max`),
`ym`, `dow`, `hour` are the `strftime('%Y-%m')`, `strftime('%w')` and
`strftime('%H')` fields (SQLite `%w` has Sunday = 0). -/
structure Timestamp where
  abs : Nat
  ym : String
  dow : Nat
  hour : Nat
deriving DecidableEq, Repr

/-- Row of table `users` (`src/app/models.py`, class `User`). -/
structure UserRec where
  id : Nat
  email : String
  username : String
  passwordHash : String
  role : UserRole
  createdAt : Timestamp
deriving DecidableEq, Repr

/-- `User.is_admin` property from `src/app/models.py`. -/
def is_admin (u : UserRec) : Bool :=
  u.role == UserRole.ADMINISTRATOR

/-- Row of table `products` (`src/app/models.py`, class `Product`).
`stock` is an `Integer` column mutated by `product.stock -= quantity`,
so it is modelled as `Int`. -/
structure ProductRec where
  id : Nat
  name : String
  price : ℚ
  stock : Int
deriving DecidableEq, Repr

/-- Row of table `orders` (`src/app/models.py`, class `Order`); the
human-readable `order_id` code is not claim-relevant and is omitted. -/
structure OrderRec where
  id : Nat
  userId : Nat
  totalAmount : ℚ
  createdAt : Timestamp
deriving DecidableEq, Repr

/-- Row of table `order_items` (`src/app/models.py`, class `OrderItem`). -/
structure OrderItemRec where
  id : Nat
  orderId : Nat
  productId : Nat
  quantity : Int
  unitPrice : ℚ
deriving DecidableEq, Repr

/-- Row of table `reviews` (`src/app/models.py`, class `Review`). -/
structure ReviewRec where
  id : Nat
  userId : Nat
  productId : Nat
  rating : Int
  feedback : Option String
  createdAt : Timestamp
deriving DecidableEq, Repr

/-- The relational store, together with the current wall-clock time used
for `created_at` defaults. -/
structure Db where
  users : List UserRec
  products : List ProductRec
  orders : List OrderRec
  orderItems : List OrderItemRec
  reviews : List ReviewRec
  now : Timestamp
deriving DecidableEq, Repr

/-- `db.query(Product).filter(Product.id == pid).first()`. -/
def firstProductIn (ps : List ProductRec) (pid : Nat) : Option ProductRec :=
  ps.find? (fun p => p.id == pid)

/-- Price of the product a `first()` lookup returns, if any. -/
def priceOf (ps : List ProductRec) (pid : Nat) : Option ℚ :=
  (firstProductIn ps pid).map (fun p => p.price)

/-- Python values, as far as the analytics joins compare them: SQLite
`strftime` yields `str` rows while loop counters are `int`. -/
inductive PyVal
  | str (s : String)
  | int (n : Int)
deriving DecidableEq, Repr

/-- Python `==`: equal strings and equal ints compare true, while a
`str` compared against an `int` is always `False`. -/
def pyEq : PyVal → PyVal → Bool
  | .str a, .str b => a == b
  | .int a, .int b => a == b
  | _, _ => false

/-- Round-half-to-even to an integer, the rounding mode of Python
`round` (exact decimal inputs assumed; `Float` representation noise is
outside the model). -/
def roundHalfEven (x : ℚ) : ℤ :=
  let f := ⌊x⌋
  let r := x - (f : ℚ)
  if r < 1/2 then f
  else if 1/2 < r then f + 1
  else if f % 2 = 0 then f else f + 1

/-- Python `round(x, 1)`. -/
def pyRound1 (x : ℚ) : ℚ :=
  (roundHalfEven (x * 10) : ℚ) / 10

/-- Python `round(x, 2)`. -/
def pyRound2 (x : ℚ) : ℚ :=
  (roundHalfEven (x * 100) : ℚ) / 100

/-- `Product.average_rating` property from `src/app/models.py`:
0.0 when the product has no reviews, otherwise
`round(sum(ratings) / len(reviews), 1)`. -/
def average_rating (rvs : List ReviewRec) : ℚ :=
  if rvs.isEmpty then 0
  else pyRound1 ((rvs.map (fun r => (r.rating : ℚ))).sum / rvs.length)

/-- The `Product.reviews` relationship: reviews whose `product_id`
references the product. -/
def productReviews (db : Db) (pid : Nat) : List ReviewRec :=
  db.reviews.filter (fun r => r.productId == pid)

/-! ## Order Engine (`src/app/routers/orders.py`) -/

/-- One element of the request body `items` list of `POST /orders/`.
The handler takes a raw `dict`, so `quantity` is an arbitrary `int`. -/
structure ItemIn where
  product_id : Nat
  quantity : Int
deriving DecidableEq, Repr

/-- An `OrderItem` built inside the loop of `create_order`, before the
order id it belongs to is known. -/
structure PendingItem where
  product_id : Nat
  quantity : Int
  unit_price : ℚ
deriving DecidableEq, Repr

/-- The in-place mutation `product.stock -= quantity` applied to the
session row with the given primary key. -/
def decStock (ps : List ProductRec) (pid : Nat) (q : Int) : List ProductRec :=
  ps.map (fun p => if p.id = pid then { p with stock := p.stock - q } else p)

/-- The `for item_data in items:` loop of `create_order`: look the
product up, fail 404 when absent, fail 400 when `product.stock <
quantity`, otherwise decrement the stock at once, accumulate
`product.price * quantity` into the total and queue an `OrderItem`
carrying `unit_price=product.price`. -/
def processItems (ps : List ProductRec) (total : ℚ) (acc : List PendingItem) :
    List ItemIn → Except ApiError (List ProductRec × ℚ × List PendingItem)
  | [] => .ok (ps, total, acc.reverse)
  | it :: rest =>
    match firstProductIn ps it.product_id with
    | none => .error ⟨404, "Product not found"⟩
    | some p =>
      if p.stock < it.quantity then .error ⟨400, "Insufficient stock"⟩
      else
        processItems (decStock ps it.product_id it.quantity)
          (total + p.price * (it.quantity : ℚ))
          (⟨it.product_id, it.quantity, p.price⟩ :: acc) rest

/-- Autoincrement id for a new `orders` row. -/
def freshOrderId (db : Db) : Nat :=
  (db.orders.map (fun o => o.id)).foldr max 0 + 1

/-- Autoincrement id for a new `order_items` row. -/
def freshItemId (db : Db) : Nat :=
  (db.orderItems.map (fun i => i.id)).foldr max 0 + 1

/-- The second loop of `create_order`: give each queued item the new
order's id (and consecutive autoincrement ids) and insert it. -/
def attachIds (oid : Nat) : Nat → List PendingItem → List OrderItemRec
  | _, [] => []
  | nid, x :: xs => ⟨nid, oid, x.product_id, x.quantity, x.unit_price⟩ :: attachIds oid (nid + 1) xs

/-- `create_order` from `src/app/routers/orders.py`: reject an empty
`items` list with 400, run the validation/decrement loop, then persist
one `Order` with the accumulated `total_amount` followed by its
`OrderItem` rows.  Both `db.commit()` calls sit after the loop, so a
request that raises inside the loop commits nothing. -/
def create_order (db : Db) (uid : Nat) (items : List ItemIn) :
    Except ApiError (Db × OrderRec) :=
  if items.isEmpty then .error ⟨400, "No items in order"⟩
  else
    match processItems db.products 0 [] items with
    | .error e => .error e
    | .ok (ps, total, pend) =>
      let oid := freshOrderId db
      let order : OrderRec := ⟨oid, uid, total, db.now⟩
      let newItems := attachIds oid (freshItemId db) pend
      .ok ({ db with
              products := ps
              orders := db.orders ++ [order]
              orderItems := db.orderItems ++ newItems }, order)

/-- Modelled from the spec: `get_db` and the session live in
`src/app/database.py`, which is not under `src/`; per the spec's
atomicity contract (§4.1: the operation either commits everything or
"fails before any stock mutation or Order is made visible"), a request
whose handler raises before reaching `db.commit()` leaves the persisted
store unchanged. -/
def create_order_state (db : Db) (uid : Nat) (items : List ItemIn) : Db :=
  match create_order db uid items with
  | .ok (db2, _) => db2
  | .error _ => db

/-! ### Specification-side rendering of order placement (for the
refinement claim C5).  These definitions follow the spec's words, to be
compared with `create_order`, which is translated from the source. -/

/-- Quantity of product `pid` consumed by the already-processed line
items `done` (spec §4.1: "a later item ... sees the already-decremented
stock of an earlier item ... if they reference the same product"). -/
def consumed (pid : Nat) (done : List ItemIn) : Int :=
  ((done.filter (fun it => it.product_id = pid)).map (fun it => it.quantity)).sum

/-- Spec-side validation loop: each line, in input order, is looked up
in the ORIGINAL catalog and validated against the original stock minus
what earlier lines of the same request consumed; prices are read once,
at validation. -/
def specValidate (ps0 : List ProductRec) :
    List ItemIn → List ItemIn → ℚ → List PendingItem → Except ApiError (ℚ × List PendingItem)
  | _, [], total, acc => .ok (total, acc.reverse)
  | done, it :: rest, total, acc =>
    match firstProductIn ps0 it.product_id with
    | none => .error ⟨404, "Product not found"⟩
    | some p =>
      if p.stock - consumed it.product_id done < it.quantity then
        .error ⟨400, "Insufficient stock"⟩
      else
        specValidate ps0 (done ++ [it]) rest (total + p.price * (it.quantity : ℚ))
          (⟨it.product_id, it.quantity, p.price⟩ :: acc)

/-- Catalog after a successful order per the spec: every product's stock
drops by the total quantity the request's lines consumed from it. -/
def specStocks (ps0 : List ProductRec) (done : List ItemIn) : List ProductRec :=
  ps0.map (fun p => { p with stock := p.stock - consumed p.id done })

/-- `place_order` as the spec words it (§4.1): empty item list is
rejected; lines are validated strictly in input order against the
running stock; on success one `Order` plus its `OrderItem` rows are
persisted and each product's stock is decremented by the consumed
amount. -/
def place_order_spec (db : Db) (uid : Nat) (items : List ItemIn) :
    Except ApiError (Db × OrderRec) :=
  if items.isEmpty then .error ⟨400, "No items in order"⟩
  else
    match specValidate db.products [] items 0 [] with
    | .error e => .error e
    | .ok (total, pend) =>
      let oid := freshOrderId db
      let order : OrderRec := ⟨oid, uid, total, db.now⟩
      let newItems := attachIds oid (freshItemId db) pend
      .ok ({ db with
              products := specStocks db.products items
              orders := db.orders ++ [order]
              orderItems := db.orderItems ++ newItems }, order)

/-! ## Order summary (`get_my_order_summary`, `src/app/routers/orders.py`) -/

/-- `func.max(Order.created_at)` over a result set (on the abstract
ordinals); `NULL` on an empty set. -/
def listMax? : List Nat → Option Nat
  | [] => none
  | a :: l =>
    match listMax? l with
    | none => some a
    | some b => some (max a b)

/-- Response schema `CustomerOrderSummary` (`src/app/schemas.py`). -/
structure CustomerOrderSummary where
  total_orders : Nat
  total_spent : ℚ
  average_order_value : ℚ
  last_order_date : Option Nat
deriving DecidableEq, Repr

/-- `get_my_order_summary` from `src/app/routers/orders.py`: one
aggregate query over the caller's orders — `count`,
`coalesce(sum(total_amount), 0)`, `coalesce(avg(total_amount), 0)` and
`max(created_at)` (which stays `NULL` when there are no rows). -/
def get_my_order_summary (db : Db) (uid : Nat) : CustomerOrderSummary :=
  let os := db.orders.filter (fun o => o.userId == uid)
  let n := os.length
  let s := (os.map (fun o => o.totalAmount)).sum
  { total_orders := n
    total_spent := s
    average_order_value := if n = 0 then 0 else s / n
    last_order_date := listMax? (os.map (fun o => o.createdAt.abs)) }

/-! ## Reviews (`src/app/routers/reviews.py`) -/

/-- Request schema `ReviewCreate` (`src/app/schemas.py`). -/
structure ReviewCreate where
  rating : Int
  feedback : Option String
  product_id : Nat
deriving DecidableEq, Repr

/-- Autoincrement id for a new `reviews` row. -/
def freshReviewId (db : Db) : Nat :=
  (db.reviews.map (fun r => r.id)).foldr max 0 + 1

/-- `create_review` from `src/app/routers/reviews.py`: 404 when the
product does not exist, 400 ("You have already reviewed this product")
when this user already has a review for this product, otherwise insert
the new review. -/
def create_review (db : Db) (uid : Nat) (rc : ReviewCreate) :
    Except ApiError (Db × ReviewRec) :=
  match firstProductIn db.products rc.product_id with
  | none => .error ⟨404, "Product not found"⟩
  | some _ =>
    match db.reviews.find? (fun rv => rv.userId == uid && rv.productId == rc.product_id) with
    | some _ => .error ⟨400, "You have already reviewed this product"⟩
    | none =>
      let rv : ReviewRec := ⟨freshReviewId db, uid, rc.product_id, rc.rating, rc.feedback, db.now⟩
      .ok ({ db with reviews := db.reviews ++ [rv] }, rv)

/-- Store visible after a `create_review` request: the handler commits
only on the success path. -/
def create_review_state (db : Db) (uid : Nat) (rc : ReviewCreate) : Db :=
  match create_review db uid rc with
  | .ok (db2, _) => db2
  | .error _ => db

/-- The §3 invariant: at most one review per `(user, product)` pair. -/
@[reducible] def uniquePerPair (rvs : List ReviewRec) : Prop :=
  rvs.Pairwise (fun a b => a.userId ≠ b.userId ∨ a.productId ≠ b.productId)

/-! ## Registration (`src/app/routers/auth.py` and `src/app/schemas.py`) -/

/-- The raw JSON body of `POST /auth/register`; `roleField = none`
means the `role` key was omitted from the request. -/
structure RawUserCreate where
  email : String
  username : String
  password : String
  roleField : Option UserRole
deriving DecidableEq, Repr

/-- Request schema `UserCreate` (`src/app/schemas.py`) after pydantic
parsing. -/
structure UserCreate where
  email : String
  username : String
  password : String
  role : UserRole
deriving DecidableEq, Repr

/-- Pydantic parsing of `UserCreate`: the declared default
`role: Optional[UserRole] = UserRole.CUSTOMER` fills in `CUSTOMER`
exactly when the field is omitted. -/
def parseUserCreate (raw : RawUserCreate) : UserCreate :=
  ⟨raw.email, raw.username, raw.password, raw.roleField.getD UserRole.CUSTOMER⟩

/-- The credential primitive `hash(password)` is an external
collaborator (spec §1); modelled as an abstract tagging function. -/
def hashPassword (p : String) : String :=
  "hashed:" ++ p

/-- Autoincrement id for a new `users` row. -/
def freshUserId (db : Db) : Nat :=
  (db.users.map (fun u => u.id)).foldr max 0 + 1

/-- `register` from `src/app/routers/auth.py`: reject duplicate email
then duplicate username with 400, otherwise insert a user whose `role`
is taken verbatim from the request schema.  The endpoint has no
authentication dependency. -/
def register (db : Db) (u : UserCreate) : Except ApiError (Db × UserRec) :=
  if (db.users.find? (fun x => x.email == u.email)).isSome then
    .error ⟨400, "Email already registered"⟩
  else if (db.users.find? (fun x => x.username == u.username)).isSome then
    .error ⟨400, "Username already taken"⟩
  else
    let nu : UserRec := ⟨freshUserId db, u.email, u.username, hashPassword u.password, u.role, db.now⟩
    .ok ({ db with users := db.users ++ [nu] }, nu)

/-! ## Product deletion (`src/app/routers/products.py`) -/

/-- One row of a SQL `GROUP BY strftime(...)` aggregate over orders:
the (string) key, `count(Order.id)` and `sum(Order.total_amount)`. -/
structure GroupRow where
  key : String
  order_count : Nat
  total_revenue : ℚ
deriving DecidableEq, Repr

/-- `GROUP BY` a string key with `count` and `sum` aggregates.  Keys
appear once each, in first-occurrence order; the back-fill code
consumes these rows by key lookup only, so the SQL `ORDER BY` on the
key affects nothing the claims observe. -/
def groupOrdersBy (f : OrderRec → String) (os : List OrderRec) : List GroupRow :=
  ((os.map f).dedup).map (fun k =>
    let hits := os.filter (fun o => f o = k)
    ⟨k, hits.length, (hits.map (fun o => o.totalAmount)).sum⟩)

/-- SQLite `strftime('%H', ...)`: the hour as a zero-padded two-digit
string. -/
def hh (h : Nat) : String :=
  if h < 10 then "0" ++ toString h else toString h

/-- Entry of the `monthly_sales` series built by `get_sales_analytics`. -/
structure MonthPoint where
  month : String
  orders : Nat
  revenue : ℚ
deriving DecidableEq, Repr

/-- Entry of the `day_of_week_sales` series. -/
structure DowPoint where
  day : Nat
  day_name : String
  orders : Nat
  revenue : ℚ
deriving DecidableEq, Repr

/-- Entry of the `hourly_sales` series. -/
structure HourPoint where
  hour : Nat
  orders : Nat
  revenue : ℚ
deriving DecidableEq, Repr

/-- The dict returned by `get_sales_analytics`. -/
structure SalesAnalytics where
  monthly_sales : List MonthPoint
  day_of_week_sales : List DowPoint
  hourly_sales : List HourPoint
  conversion_rate : ℚ
  total_customers : Nat
  total_orders : Nat
deriving DecidableEq, Repr

/-- Time inputs of `get_sales_analytics` that come from
`datetime.now()`: the cutoff ordinal for "twelve months ago" and the
`strftime('%Y-%m')` key of `now - timedelta(days=30*i)` for each
`i < 12` (calendar arithmetic stays outside the model). -/
structure SalesParams where
  twelveMonthsAgo : Nat
  monthKey : Nat → String

/-- `day_names` list from `get_sales_analytics`. -/
def day_names : List String :=
  ["Sunday", "Monday", "Tuesday", "Wednesday", "Thursday", "Friday", "Saturday"]

/-- The `try:` body of `get_sales_analytics`
(`src/app/routers/analytics.py`): three `GROUP BY strftime` aggregates,
then back-fill.  The month back-fill looks rows up by their string key;
the day-of-week and hour back-fills compare the string key of the SQL
row against the `int` loop counter with Python `==` (`d.day_of_week ==
day_num`, `h.hour == hour`), `pyEq` of a `str` and an `int`. -/
def sales_analytics_body (db : Db) (prm : SalesParams) : SalesAnalytics :=
  let monthly_sales :=
    groupOrdersBy (fun o => o.createdAt.ym)
      (db.orders.filter (fun o => prm.twelveMonthsAgo ≤ o.createdAt.abs))
  let day_of_week_sales := groupOrdersBy (fun o => toString o.createdAt.dow) db.orders
  let hourly_sales := groupOrdersBy (fun o => hh o.createdAt.hour) db.orders
  let total_users := db.users.length
  let total_orders := db.orders.length
  let conversion_rate :=
    if total_users > 0 then (total_orders : ℚ) / total_users * 100 else 0
  let month_range := (List.range 12).map prm.monthKey
  let monthly_sales_data :=
    (month_range.map (fun m =>
      match monthly_sales.find? (fun row => pyEq (.str row.key) (.str m)) with
      | some row => MonthPoint.mk m row.order_count row.total_revenue
      | none => MonthPoint.mk m 0 0)).reverse
  let day_of_week_data :=
    (List.range 7).map (fun d =>
      match day_of_week_sales.find? (fun row => pyEq (.str row.key) (.int (Int.ofNat d))) with
      | some row =>
          DowPoint.mk (row.key.toNat?.getD 0) (day_names.getD d "") row.order_count
            row.total_revenue
      | none => DowPoint.mk d (day_names.getD d "") 0 0)
  let hourly_data :=
    (List.range 24).map (fun h =>
      match hourly_sales.find? (fun row => pyEq (.str row.key) (.int (Int.ofNat h))) with
      | some row => HourPoint.mk (row.key.toNat?.getD 0) row.order_count row.total_revenue
      | none => HourPoint.mk h 0 0)
  ⟨monthly_sales_data, day_of_week_data, hourly_data, pyRound2 conversion_rate,
    total_users, total_orders⟩

/-- The zero/empty dict built by the `except:` branch of
`get_sales_analytics` (lines 504-511). -/
def salesAnalyticsFallback : SalesAnalytics :=
  ⟨[], [], [], 0, 0, 0⟩

/-- `get_sales_analytics` seen as error-handler plumbing: the `try:`
body either produces a result or raises an internal fault, and the
`except Exception:` branch degrades to the zero/empty dict. -/
def get_sales_analytics (body : Except String SalesAnalytics) : SalesAnalytics :=
  match body with
  | .ok r => r
  | .error _ => salesAnalyticsFallback

/-- `overall_stats` dict of `get_rating_analytics`. -/
structure RatingOverallStats where
  total_reviews : Nat
  average_rating : ℚ
  products_with_reviews : Nat
  positive_reviews : Nat
  neutral_reviews : Nat
  negative_reviews : Nat
  positive_percentage : ℚ
deriving DecidableEq, Repr

/-- Entry of `rating_distribution` in `get_rating_analytics`. -/
structure RatingBucket where
  rating : Int
  count : Nat
  percentage : ℚ
deriving DecidableEq, Repr

/-- The dict returned by `get_rating_analytics` (trend/top-product rows
kept abstract as their count is all the fallback fixes). -/
structure RatingAnalytics where
  rating_distribution : List RatingBucket
  top_rated_products : List (Nat × String × ℚ × Nat)
  rating_trends : List (String × ℚ × Nat)
  overall_stats : RatingOverallStats
deriving DecidableEq, Repr

/-- The zero/empty dict built by the `except:` branch of
`get_rating_analytics` (lines 614-627). -/
def ratingAnalyticsFallback : RatingAnalytics :=
  ⟨[], [], [], ⟨0, 0, 0, 0, 0, 0, 0⟩⟩

/-- `get_rating_analytics` seen as error-handler plumbing: its
`except Exception:` branch degrades to the zero/empty dict. -/
def get_rating_analytics (body : Except String RatingAnalytics) : RatingAnalytics :=
  match body with
  | .ok r => r
  | .error _ => ratingAnalyticsFallback

/-- `get_dashboard_metrics` (`src/app/routers/analytics.py`, lines
17-66) seen as error-handler plumbing: the `except Exception as e:`
branch re-raises `HTTPException(status_code=500, ...)` instead of
degrading. -/
def get_dashboard_metrics {α : Type} (body : Except String α) : Except ApiError α :=
  match body with
  | .ok m => .ok m
  | .error _ => .error ⟨500, "Failed to get dashboard metrics"⟩

/-- `get_system_overview` (and the orders/users/products analytics
endpoints): the handler installs no exception handler at all, so an
internal fault propagates to the framework. -/
def get_system_overview {α : Type} (body : Except String α) : Except String α :=
  body

/-! ## Example fixtures used by concrete theorems and witnesses -/

/-- A throwaway timestamp. -/
def ts0 : Timestamp := ⟨0, "", 0, 0⟩

/-- An order placed on a Sunday (`%w = 0`) at 09h in month 2025-09. -/
def sundayTs : Timestamp := ⟨100, "2025-09", 0, 9⟩

/-- Three reviews of product 1 with ratings 5, 4, 4. -/
def exReviews544 : List ReviewRec :=
  [⟨1, 1, 1, 5, none, ts0⟩, ⟨2, 2, 1, 4, none, ts0⟩, ⟨3, 3, 1, 4, none, ts0⟩]

/-- A store where user 1 has two orders (totals 10 and 20, placed at
ordinals 5 and 9) and user 42 has none. -/
def exDb8 : Db :=
  ⟨[], [], [⟨1, 1, 10, ⟨5, "", 0, 0⟩⟩, ⟨2, 1, 20, ⟨9, "", 0, 0⟩⟩], [], [], ts0⟩

/-- An empty store. -/
def exDbEmpty : Db := ⟨[], [], [], [], [], ts0⟩

/-- An unauthenticated registration request that explicitly asks for
the `ADMINISTRATOR` role. -/
def exRaw9 : RawUserCreate :=
  ⟨"mallory@example.com", "mallory", "secret", some UserRole.ADMINISTRATOR⟩

/-- A store with one product and an existing review of it by user 1. -/
def exDb6 : Db :=
  ⟨[], [⟨1, "Widget", 10, 5⟩], [], [], [⟨1, 1, 1, 5, none, ts0⟩], ts0⟩

/-- A store with one user and a single order of total 10 placed on a
Sunday at 09h in month 2025-09. -/
def exDb4 : Db :=
  ⟨[⟨1, "u@example.com", "u", "h", UserRole.CUSTOMER, ts0⟩], [],
    [⟨1, 1, 10, sundayTs⟩], [], [], ts0⟩

/-- Time parameters under which the sales-analytics month range
contains the observed month 2025-09 (at index 1). -/
def exParams4 : SalesParams :=
  ⟨0, fun i => if i = 1 then "2025-09" else "M" ++ toString i⟩

/-- A store with one product priced 29.99 with stock 10. -/
def exDb1 : Db := ⟨[], [⟨1, "Widget", 2999 / 100, 10⟩], [], [], [], ts0⟩

/-- A store with a single product (id 1, price 10, stock 5). -/
def exDb2 : Db := ⟨[], [⟨1, "Widget", 10, 5⟩], [], [], [], ts0⟩

/-- A request whose first line references an absent product and whose
second line over-draws product 1 (quantity 7 against stock 5). -/
def exItems2 : List ItemIn := [⟨2, 1⟩, ⟨1, 7⟩]

/-- The order created from `exDb1` for quantity 2: total 59.98. -/
def exOrder1 : OrderRec := ⟨1, 1, 2999 / 50, ts0⟩

/-- `exDb1` after that order: stock 8, one order row, one item row
with the snapshotted unit price 29.99. -/
def exDb1b : Db :=
  ⟨[], [⟨1, "Widget", 2999 / 100, 8⟩], [exOrder1], [⟨1, 1, 1, 2, 2999 / 100⟩], [], ts0⟩

/-! ## General lemmas -/

theorem roundHalfEven_sub_abs_le (x : ℚ) : |(roundHalfEven x : ℚ) - x| ≤ 1 / 2 := by
  have h0 : ((⌊x⌋ : ℤ) : ℚ) ≤ x := Int.floor_le x
  have h1 : x < (⌊x⌋ : ℤ) + 1 := Int.lt_floor_add_one x
  simp only [roundHalfEven]
  by_cases hlt : x - ((⌊x⌋ : ℤ) : ℚ) < 1 / 2
  · rw [if_pos hlt, abs_le]
    constructor <;> linarith
  · rw [if_neg hlt]
    by_cases hgt : 1 / 2 < x - ((⌊x⌋ : ℤ) : ℚ)
    · rw [if_pos hgt, abs_le]
      push_cast
      constructor <;> linarith
    · rw [if_neg hgt]
      have heq : x - ((⌊x⌋ : ℤ) : ℚ) = 1 / 2 :=
        le_antisymm (not_lt.mp hgt) (not_lt.mp hlt)
      by_cases he : ⌊x⌋ % 2 = 0
      · rw [if_pos he, abs_le]
        constructor <;> linarith
      · rw [if_neg he, abs_le]
        push_cast
        constructor <;> linarith

theorem pyRound1_sub_abs_le (x : ℚ) : |pyRound1 x - x| ≤ 1 / 20 := by
  have h := roundHalfEven_sub_abs_le (x * 10)
  have h10 : |pyRound1 x - x| = |(roundHalfEven (x * 10) : ℚ) - x * 10| / 10 := by
    rw [pyRound1, ← abs_of_pos (show (0 : ℚ) < 10 by norm_num), ← abs_div]
    congr 1
    field_simp
    ring
  rw [h10]
  linarith [abs_nonneg ((roundHalfEven (x * 10) : ℚ) - x * 10)]

/-! ## Claim theorems -/

/-- C7: a product's derived `average_rating` is 0 with zero reviews and
otherwise the mean of its reviews' ratings rounded to 1 decimal place
(a multiple of 1/10 within 1/20 of the exact mean); for ratings
{5, 4, 4} it equals 4.3. -/
theorem webshop_C7 :
    average_rating [] = 0 ∧
    (∀ rvs : List ReviewRec, rvs ≠ [] →
      |average_rating rvs - (rvs.map (fun r => (r.rating : ℚ))).sum / rvs.length| ≤ 1 / 20 ∧
      ∃ z : ℤ, average_rating rvs * 10 = z) ∧
    average_rating exReviews544 = 43 / 10 := by
  have hf : (⌊(13 : ℚ) / 3 * 10⌋ : ℤ) = 43 := by
    rw [Int.floor_eq_iff]
    norm_num
  have h544 : average_rating exReviews544 = 43 / 10 := by
    rw [average_rating]
    norm_num [exReviews544]
    simp only [pyRound1, roundHalfEven, hf]
    norm_num
  refine ⟨by simp [average_rating], fun rvs hne => ?_, h544⟩
  have hnon : rvs.isEmpty = false := by
    cases rvs with
    | nil => exact absurd rfl hne
    | cons a l => rfl
  constructor
  · rw [average_rating, hnon]
    simp only [Bool.false_eq_true, if_false]
    exact pyRound1_sub_abs_le _
  · refine ⟨roundHalfEven ((rvs.map (fun r => (r.rating : ℚ))).sum / rvs.length * 10), ?_⟩
    rw [average_rating, hnon]
    simp only [Bool.false_eq_true, if_false, pyRound1]
    field_simp

/-- Witness for C7 at concrete inputs: the nonempty-case bound holds
for the {5, 4, 4} reviews, whose exact mean is 13/3. -/
theorem webshop_C7_witness :
    |average_rating exReviews544 -
        (exReviews544.map (fun r => (r.rating : ℚ))).sum / exReviews544.length| ≤ 1 / 20 ∧
    ∃ z : ℤ, average_rating exReviews544 * 10 = z :=
  webshop_C7.2.1 exReviews544 (by decide)

/-- C3 counterexample: the dashboard aggregator entry point does NOT
degrade to a zero-valued result on an internal computation error — its
`except` branch re-raises `HTTPException(500)`, surfacing an
`InternalError` to the caller. -/
theorem webshop_C3_counterexample :
    get_dashboard_metrics (Except.error "database failure" : Except String SalesAnalytics) =
      .error ⟨500, "Failed to get dashboard metrics"⟩ ∧
    ∀ r : SalesAnalytics,
      get_dashboard_metrics (Except.error "database failure" : Except String SalesAnalytics) ≠
        .ok r :=
  ⟨rfl, fun _ h => Except.noConfusion h⟩

/-- C3 amended: only the sales-analytics and rating-analytics helpers
catch internal computation errors and degrade to the all-zero/empty
structure; the dashboard entry point catches them but surfaces an
HTTP 500 `InternalError`, and the overview (and orders/users/products)
entry points install no handler, so internal errors propagate. -/
theorem webshop_C3_amended (s : String) :
    get_sales_analytics (.error s) = salesAnalyticsFallback ∧
    get_rating_analytics (.error s) = ratingAnalyticsFallback ∧
    (∀ r : SalesAnalytics, get_sales_analytics (.ok r) = r) ∧
    (∀ r : RatingAnalytics, get_rating_analytics (.ok r) = r) ∧
    get_dashboard_metrics (Except.error s : Except String SalesAnalytics) =
      .error ⟨500, "Failed to get dashboard metrics"⟩ ∧
    get_system_overview (Except.error s : Except String SalesAnalytics) = .error s :=
  ⟨rfl, rfl, fun _ => rfl, fun _ => rfl, rfl, rfl⟩

theorem listMax?_spec (l : List Nat) (hne : l ≠ []) :
    ∃ m, listMax? l = some m ∧ m ∈ l ∧ ∀ x ∈ l, x ≤ m := by
  induction l with
  | nil => exact absurd rfl hne
  | cons a l ih =>
    rcases l with _ | ⟨b, t⟩
    · refine ⟨a, ?_, List.mem_cons_self a [], ?_⟩
      · simp [listMax?]
      · intro x hx
        simp only [List.mem_singleton] at hx
        exact hx ▸ le_refl a
    · obtain ⟨m, hm, hmem, hub⟩ := ih (by simp)
      refine ⟨max a m, ?_, ?_, ?_⟩
      · rw [listMax?, hm]
      · rcases le_total a m with h | h
        · rw [max_eq_right h]
          exact List.mem_cons_of_mem a hmem
        · rw [max_eq_left h]
          exact List.mem_cons_self a (b :: t)
      · intro x hx
        rcases List.mem_cons.mp hx with rfl | hx
        · exact le_max_left _ _
        · exact le_trans (hub x hx) (le_max_right _ _)

/-- C8: the order summary of a user with zero orders is
`{0, 0.0, 0.0, null}` rather than an error; for a user with orders it
is the count, the sum and the average of their orders' `total_amount`
together with the most recent order timestamp. -/
theorem webshop_C8 (db : Db) (uid : Nat) :
    (db.orders.filter (fun o => o.userId == uid) = [] →
      get_my_order_summary db uid = ⟨0, 0, 0, none⟩) ∧
    (db.orders.filter (fun o => o.userId == uid) ≠ [] →
      ∃ m, m ∈ (db.orders.filter (fun o => o.userId == uid)).map (fun o => o.createdAt.abs) ∧
        (∀ t ∈ (db.orders.filter (fun o => o.userId == uid)).map (fun o => o.createdAt.abs),
          t ≤ m) ∧
        get_my_order_summary db uid =
          ⟨(db.orders.filter (fun o => o.userId == uid)).length,
            ((db.orders.filter (fun o => o.userId == uid)).map (fun o => o.totalAmount)).sum,
            ((db.orders.filter (fun o => o.userId == uid)).map (fun o => o.totalAmount)).sum /
              (db.orders.filter (fun o => o.userId == uid)).length,
            some m⟩) := by
  constructor
  · intro h
    simp [get_my_order_summary, h, listMax?]
  · intro hne
    obtain ⟨m, hm, hmem, hub⟩ :=
      listMax?_spec ((db.orders.filter (fun o => o.userId == uid)).map (fun o => o.createdAt.abs))
        (by simpa using hne)
    have hlen : (db.orders.filter (fun o => o.userId == uid)).length ≠ 0 := by
      simpa [List.length_eq_zero] using hne
    refine ⟨m, hmem, hub, ?_⟩
    rw [get_my_order_summary, hm, if_neg hlen]

/-- Witness for C8 at a concrete store: user 42 has no orders and gets
all zeros and a null date; user 1 has two orders summing to 30 with
latest ordinal 9. -/
theorem webshop_C8_witness :
    get_my_order_summary exDb8 42 = ⟨0, 0, 0, none⟩ ∧
    ∃ m, m ∈ (exDb8.orders.filter (fun o => o.userId == 1)).map (fun o => o.createdAt.abs) ∧
      (∀ t ∈ (exDb8.orders.filter (fun o => o.userId == 1)).map (fun o => o.createdAt.abs),
        t ≤ m) ∧
      get_my_order_summary exDb8 1 =
        ⟨(exDb8.orders.filter (fun o => o.userId == 1)).length,
          ((exDb8.orders.filter (fun o => o.userId == 1)).map (fun o => o.totalAmount)).sum,
          ((exDb8.orders.filter (fun o => o.userId == 1)).map (fun o => o.totalAmount)).sum /
            (exDb8.orders.filter (fun o => o.userId == 1)).length,
          some m⟩ :=
  ⟨(webshop_C8 exDb8 42).1 (by decide), (webshop_C8 exDb8 1).2 (by decide)⟩

/-- C9: registration stores exactly the role supplied in the request
body — an unauthenticated request carrying `role=ADMINISTRATOR` creates
an administrator (`is_admin` true); the `CUSTOMER` default applies only
when the `role` field is omitted. -/
theorem webshop_C9 (db : Db) (raw : RawUserCreate)
    (he : db.users.find? (fun x => x.email == raw.email) = none)
    (hu : db.users.find? (fun x => x.username == raw.username) = none) :
    ∃ db2 nu, register db (parseUserCreate raw) = .ok (db2, nu) ∧
      nu ∈ db2.users ∧
      nu.role = raw.roleField.getD UserRole.CUSTOMER ∧
      (raw.roleField = some UserRole.ADMINISTRATOR → is_admin nu = true) ∧
      (raw.roleField = none → nu.role = UserRole.CUSTOMER ∧ is_admin nu = false) := by
  have hreg : register db (parseUserCreate raw) =
      .ok ({ db with
              users := db.users ++
                [⟨freshUserId db, raw.email, raw.username, hashPassword raw.password,
                  raw.roleField.getD UserRole.CUSTOMER, db.now⟩] },
        ⟨freshUserId db, raw.email, raw.username, hashPassword raw.password,
          raw.roleField.getD UserRole.CUSTOMER, db.now⟩) := by
    simp only [register, parseUserCreate, he, hu, Option.isSome_none, Bool.false_eq_true,
      if_false]
  refine ⟨_, _, hreg, by simp, rfl, ?_, ?_⟩
  · intro h
    simp only [h, Option.getD_some, is_admin]
    rfl
  · intro h
    rw [h]
    exact ⟨rfl, rfl⟩

/-- Witness for C9: against an empty user table, a request that asks
for `ADMINISTRATOR` is created as an administrator. -/
theorem webshop_C9_witness :
    ∃ db2 nu, register exDbEmpty (parseUserCreate exRaw9) = .ok (db2, nu) ∧
      nu ∈ db2.users ∧
      nu.role = exRaw9.roleField.getD UserRole.CUSTOMER ∧
      (exRaw9.roleField = some UserRole.ADMINISTRATOR → is_admin nu = true) ∧
      (exRaw9.roleField = none → nu.role = UserRole.CUSTOMER ∧ is_admin nu = false) :=
  webshop_C9 exDbEmpty exRaw9 rfl rfl

/-- C6: at most one review exists per `(user, product)` pair — when the
user already has a review for a (still existing) product, a second
attempt fails with the conflict error "already reviewed", the store is
left unchanged on every duplicate attempt, and `create_review`
preserves pairwise uniqueness of `(user, product)` over the review
table. -/
theorem webshop_C6 (db : Db) (uid : Nat) (rc : ReviewCreate) :
    ((∃ rv ∈ db.reviews, rv.userId = uid ∧ rv.productId = rc.product_id) →
      (firstProductIn db.products rc.product_id).isSome = true →
      create_review db uid rc = .error ⟨400, "You have already reviewed this product"⟩) ∧
    ((∃ rv ∈ db.reviews, rv.userId = uid ∧ rv.productId = rc.product_id) →
      create_review_state db uid rc = db) ∧
    (uniquePerPair db.reviews → uniquePerPair (create_review_state db uid rc).reviews) := by
  refine ⟨?_, ?_, ?_⟩
  · intro hdup hp
    obtain ⟨p, hp2⟩ := Option.isSome_iff_exists.mp hp
    cases hfind : db.reviews.find? (fun rv => rv.userId == uid && rv.productId == rc.product_id) with
    | none =>
      obtain ⟨rv, hmem, h1, h2⟩ := hdup
      have hc := List.find?_eq_none.mp hfind rv hmem
      simp [h1, h2] at hc
    | some rv0 =>
      simp [create_review, hp2, hfind]
  · rintro ⟨rv, hmem, h1, h2⟩
    rw [create_review_state]
    cases hp : firstProductIn db.products rc.product_id with
    | none => simp [create_review, hp]
    | some p =>
      cases hfind : db.reviews.find?
          (fun rv => rv.userId == uid && rv.productId == rc.product_id) with
      | some rv0 => simp [create_review, hp, hfind]
      | none =>
        have hc := List.find?_eq_none.mp hfind rv hmem
        simp [h1, h2] at hc
  · intro huniq
    rw [create_review_state]
    cases hp : firstProductIn db.products rc.product_id with
    | none =>
      simp only [create_review, hp]
      exact huniq
    | some p =>
      cases hfind : db.reviews.find?
          (fun rv => rv.userId == uid && rv.productId == rc.product_id) with
      | some rv0 =>
        simp only [create_review, hp, hfind]
        exact huniq
      | none =>
        simp only [create_review, hp, hfind]
        rw [uniquePerPair, List.pairwise_append]
        refine ⟨huniq, List.pairwise_singleton _ _, ?_⟩
        intro a ha b hb
        simp only [List.mem_singleton] at hb
        subst hb
        have hc := List.find?_eq_none.mp hfind a ha
        by_cases h1 : a.userId = uid
        · right
          intro h2
          exact hc (by simp [h1, h2])
        · left
          exact h1

/-- Witness for C6: user 1 already reviewed product 1, so a second
attempt fails with the "already reviewed" conflict, changes nothing,
and uniqueness is preserved. -/
theorem webshop_C6_witness :
    create_review exDb6 1 ⟨4, none, 1⟩ =
      .error ⟨400, "You have already reviewed this product"⟩ ∧
    create_review_state exDb6 1 ⟨4, none, 1⟩ = exDb6 ∧
    uniquePerPair (create_review_state exDb6 1 ⟨4, none, 1⟩).reviews :=
  ⟨(webshop_C6 exDb6 1 ⟨4, none, 1⟩).1 (by decide) (by decide),
   (webshop_C6 exDb6 1 ⟨4, none, 1⟩).2.1 (by decide),
   (webshop_C6 exDb6 1 ⟨4, none, 1⟩).2.2 (by decide)⟩

/-- C4: the sales-analytics monthly/day-of-week/hourly series always
have exactly 12/7/24 entries with unobserved buckets rendered as
zeros, and the month back-fill does carry observed data — but the
day-of-week and hour back-fill joins compare the SQL string key against
an `int` loop counter, so on a store whose single order was placed on a
Sunday at 09h every day-of-week and hour bucket still reports
`orders = 0, revenue = 0`, contradicting the claim's observed-bucket
clause (code bug: the code's own found-branch shows the join was meant
to match). -/
theorem webshop_C4_bug :
    (∀ (db : Db) (prm : SalesParams),
      (sales_analytics_body db prm).monthly_sales.length = 12 ∧
      (sales_analytics_body db prm).day_of_week_sales.length = 7 ∧
      (sales_analytics_body db prm).hourly_sales.length = 24) ∧
    (exDb4.orders.filter (fun o => o.createdAt.dow == 0)).length = 1 ∧
    (exDb4.orders.filter (fun o => o.createdAt.hour == 9)).length = 1 ∧
    MonthPoint.mk "2025-09" 1 10 ∈ (sales_analytics_body exDb4 exParams4).monthly_sales ∧
    (sales_analytics_body exDb4 exParams4).day_of_week_sales.map (fun p => (p.orders, p.revenue)) =
      List.replicate 7 (0, (0 : ℚ)) ∧
    (sales_analytics_body exDb4 exParams4).hourly_sales.map (fun p => (p.orders, p.revenue)) =
      List.replicate 24 (0, (0 : ℚ)) := by
  refine ⟨?_, rfl, rfl, ?_, rfl, rfl⟩
  · intro db prm
    refine ⟨?_, ?_, ?_⟩ <;> simp [sales_analytics_body]
  · have hl : (sales_analytics_body exDb4 exParams4).monthly_sales =
        [⟨"M11", 0, 0⟩, ⟨"M10", 0, 0⟩, ⟨"M9", 0, 0⟩, ⟨"M8", 0, 0⟩, ⟨"M7", 0, 0⟩,
          ⟨"M6", 0, 0⟩, ⟨"M5", 0, 0⟩, ⟨"M4", 0, 0⟩, ⟨"M3", 0, 0⟩, ⟨"M2", 0, 0⟩,
          ⟨"2025-09", 1, (10 : ℚ) + 0⟩, ⟨"M0", 0, 0⟩] := rfl
    have h2 : ((10 : ℚ) + 0) = 10 := by norm_num
    rw [hl, show MonthPoint.mk "2025-09" 1 10 = MonthPoint.mk "2025-09" 1 ((10 : ℚ) + 0) by
      rw [h2]]
    simp

theorem priceOf_map_pres (ps : List ProductRec) (g : ProductRec → ProductRec)
    (hg : ∀ p, (g p).id = p.id ∧ (g p).price = p.price) (pid2 : Nat) :
    priceOf (ps.map g) pid2 = priceOf ps pid2 := by
  induction ps with
  | nil => rfl
  | cons p ps ih =>
    obtain ⟨h1, h2⟩ := hg p
    by_cases hm : (p.id == pid2) = true
    · simp [priceOf, firstProductIn, List.find?_cons, h1, h2, hm]
    · simp only [priceOf, firstProductIn] at ih ⊢
      simp only [List.map_cons, List.find?_cons, h1, hm]
      exact ih

theorem priceOf_decStock (ps : List ProductRec) (pid pid2 : Nat) (q : Int) :
    priceOf (decStock ps pid q) pid2 = priceOf ps pid2 := by
  refine priceOf_map_pres ps _ (fun p => ?_) pid2
  by_cases h : p.id = pid <;> simp [h]

theorem processItems_ok_spec (items : List ItemIn) :
    ∀ (ps : List ProductRec) (total : ℚ) (acc : List PendingItem)
      (ps2 : List ProductRec) (t : ℚ) (out : List PendingItem),
      processItems ps total acc items = .ok (ps2, t, out) →
      ∃ news, out = acc.reverse ++ news ∧
        t = total + (news.map (fun x => x.unit_price * (x.quantity : ℚ))).sum ∧
        ∀ x ∈ news, priceOf ps x.product_id = some x.unit_price := by
  induction items with
  | nil =>
    intro ps total acc ps2 t out h
    rw [processItems] at h
    injection h with h
    injection h with h1 h
    injection h with h2 h3
    refine ⟨[], by simp [h3.symm], by simp [h2.symm], by simp⟩
  | cons it rest ih =>
    intro ps total acc ps2 t out h
    rw [processItems] at h
    cases hf : firstProductIn ps it.product_id with
    | none => rw [hf] at h; exact absurd h (by simp)
    | some p =>
      rw [hf] at h
      dsimp only at h
      by_cases hst : p.stock < it.quantity
      · rw [if_pos hst] at h
        exact absurd h (by simp)
      · rw [if_neg hst] at h
        obtain ⟨news2, hout, ht, hpr⟩ := ih _ _ _ _ _ _ h
        refine ⟨⟨it.product_id, it.quantity, p.price⟩ :: news2, ?_, ?_, ?_⟩
        · rw [hout]
          simp
        · rw [ht]
          simp [List.sum_cons]
          ring
        · intro x hx
          rcases List.mem_cons.mp hx with rfl | hx
          · rw [priceOf, hf]
            rfl
          · rw [← priceOf_decStock ps it.product_id x.product_id it.quantity]
            exact hpr x hx

theorem attachIds_sum (oid : Nat) (nid : Nat) (xs : List PendingItem) :
    ((attachIds oid nid xs).map (fun i => i.unitPrice * (i.quantity : ℚ))).sum =
      (xs.map (fun x => x.unit_price * (x.quantity : ℚ))).sum := by
  induction xs generalizing nid with
  | nil => rfl
  | cons x xs ih => simp [attachIds, List.sum_cons, ih]

theorem attachIds_mem (oid : Nat) (nid : Nat) (xs : List PendingItem) (i : OrderItemRec)
    (hi : i ∈ attachIds oid nid xs) :
    ∃ x ∈ xs, i.productId = x.product_id ∧ i.unitPrice = x.unit_price ∧
      i.quantity = x.quantity ∧ i.orderId = oid := by
  induction xs generalizing nid with
  | nil => exact absurd hi (by simp [attachIds])
  | cons x xs ih =>
    rw [attachIds] at hi
    rcases List.mem_cons.mp hi with rfl | hi
    · exact ⟨x, List.mem_cons_self _ _, rfl, rfl, rfl, rfl⟩
    · obtain ⟨y, hy, hh⟩ := ih (nid + 1) hi
      exact ⟨y, List.mem_cons_of_mem _ hy, hh⟩

/-- C1: a successfully placed order persists with
`total_amount = Σ unit_price×quantity` over exactly the new
`OrderItem` rows, and each row's `unit_price` is the product's price as
read from the pre-request catalog (snapshotted at validation, never
re-read). -/
theorem webshop_C1 (db : Db) (uid : Nat) (items : List ItemIn) (db2 : Db) (order : OrderRec)
    (h : create_order db uid items = .ok (db2, order)) :
    order ∈ db2.orders ∧
    ∃ news, db2.orderItems = db.orderItems ++ news ∧
      order.totalAmount = (news.map (fun i => i.unitPrice * (i.quantity : ℚ))).sum ∧
      ∀ i ∈ news, i.orderId = order.id ∧
        priceOf db.products i.productId = some i.unitPrice := by
  rw [create_order] at h
  by_cases he : items.isEmpty
  · rw [if_pos he] at h
    exact absurd h (by simp)
  · rw [if_neg he] at h
    cases hp : processItems db.products 0 [] items with
    | error e =>
      rw [hp] at h
      exact absurd h (by simp)
    | ok v =>
      obtain ⟨ps, t, pend⟩ := v
      rw [hp] at h
      dsimp only at h
      injection h with h
      injection h with hdb horder
      subst hdb
      subst horder
      obtain ⟨news0, hout, ht, hpr⟩ := processItems_ok_spec items db.products 0 [] ps t pend hp
      simp only [List.reverse_nil, List.nil_append] at hout
      subst hout
      refine ⟨by simp, attachIds (freshOrderId db) (freshItemId db) pend, rfl, ?_, ?_⟩
      · show t = _
        rw [attachIds_sum, ht]
        simp
      · intro i hi
        obtain ⟨x, hx, h1, h2, h3, h4⟩ :=
          attachIds_mem (freshOrderId db) (freshItemId db) pend i hi
        refine ⟨h4, ?_⟩
        rw [h1, h2]
        exact hpr x hx

/-- Witness for C1: the spec's concrete scenario — price 29.99, stock
10, quantity 2 gives total 59.98, stock 8 and one snapshotted item. -/
theorem webshop_C1_witness :
    create_order exDb1 1 [⟨1, 2⟩] = .ok (exDb1b, exOrder1) ∧
    (exOrder1 ∈ exDb1b.orders ∧
      ∃ news, exDb1b.orderItems = exDb1.orderItems ++ news ∧
        exOrder1.totalAmount = (news.map (fun i => i.unitPrice * (i.quantity : ℚ))).sum ∧
        ∀ i ∈ news, i.orderId = exOrder1.id ∧
          priceOf exDb1.products i.productId = some i.unitPrice) := by
  have h : create_order exDb1 1 [⟨1, 2⟩] = .ok (exDb1b, exOrder1) := by
    norm_num [create_order, processItems, firstProductIn, decStock, freshOrderId, freshItemId,
      attachIds, exDb1, exDb1b, exOrder1]
  exact ⟨h, webshop_C1 exDb1 1 [⟨1, 2⟩] exDb1b exOrder1 h⟩

theorem consumed_append (pid : Nat) (done : List ItemIn) (it : ItemIn) :
    consumed pid (done ++ [it]) =
      consumed pid done + (if it.product_id = pid then it.quantity else 0) := by
  unfold consumed
  rw [List.filter_append, List.map_append, List.sum_append]
  congr 1
  by_cases h : it.product_id = pid <;> simp [h]

theorem firstProductIn_specStocks (ps : List ProductRec) (done : List ItemIn) (pid : Nat) :
    firstProductIn (specStocks ps done) pid =
      (firstProductIn ps pid).map (fun p => { p with stock := p.stock - consumed pid done }) := by
  induction ps with
  | nil => rfl
  | cons p ps ih =>
    by_cases hm : (p.id == pid) = true
    · have hid : p.id = pid := by simpa using hm
      simp [specStocks, firstProductIn, List.find?_cons, hm, hid]
    · simp only [specStocks, firstProductIn] at ih ⊢
      simpa [List.find?_cons, hm] using ih

theorem decStock_specStocks (ps : List ProductRec) (done : List ItemIn) (it : ItemIn) :
    decStock (specStocks ps done) it.product_id it.quantity = specStocks ps (done ++ [it]) := by
  unfold decStock specStocks
  rw [List.map_map]
  apply List.map_congr_left
  intro p _
  by_cases h : p.id = it.product_id
  · simp only [Function.comp]
    rw [if_pos (show ({ p with stock := p.stock - consumed p.id done } : ProductRec).id =
      it.product_id from h)]
    rw [consumed_append, if_pos h.symm]
    congr 1
    omega
  · simp only [Function.comp]
    rw [if_neg (show ¬ ({ p with stock := p.stock - consumed p.id done } : ProductRec).id =
      it.product_id from h)]
    rw [consumed_append, if_neg (fun hh => h hh.symm)]
    congr 1
    omega

theorem specStocks_nil (ps : List ProductRec) : specStocks ps [] = ps := by
  unfold specStocks
  have hp : ∀ p : ProductRec, ({ p with stock := p.stock - consumed p.id [] } : ProductRec) = p := by
    intro p
    simp [consumed]
  rw [List.map_congr_left (fun p _ => hp p)]
  simp

theorem processItems_eq_specValidate (ps0 : List ProductRec) (items : List ItemIn) :
    ∀ (done : List ItemIn) (total : ℚ) (acc : List PendingItem),
      processItems (specStocks ps0 done) total acc items =
        (specValidate ps0 done items total acc).map
          (fun r => (specStocks ps0 (done ++ items), r.1, r.2)) := by
  induction items with
  | nil =>
    intro done total acc
    simp [processItems, specValidate, Except.map]
  | cons it rest ih =>
    intro done total acc
    rw [processItems, specValidate, firstProductIn_specStocks]
    cases hf : firstProductIn ps0 it.product_id with
    | none => simp [Except.map]
    | some p =>
      simp only [Option.map_some']
      by_cases hst : p.stock - consumed it.product_id done < it.quantity
      · rw [if_pos hst, if_pos hst]
        simp [Except.map]
      · rw [if_neg hst, if_neg hst]
        rw [decStock_specStocks, ih (done ++ [it])]
        rw [List.append_assoc]
        simp

theorem create_order_eq_place_order_spec (db : Db) (uid : Nat) (items : List ItemIn) :
    create_order db uid items = place_order_spec db uid items := by
  rw [create_order, place_order_spec]
  by_cases he : items.isEmpty
  · rw [if_pos he, if_pos he]
  · rw [if_neg he, if_neg he]
    have key := processItems_eq_specValidate db.products items [] 0 []
    rw [specStocks_nil] at key
    rw [key]
    cases hs : specValidate db.products [] items 0 [] with
    | error e => simp [Except.map]
    | ok v =>
      obtain ⟨t, pend⟩ := v
      simp [Except.map]

/-- C5: order placement processes line items strictly in input order —
looking each product up (404 when absent), validating the quantity
against the stock already decremented by the earlier lines of the same
request (not the originally stored stock), decrementing immediately,
and snapshotting the price read at validation — as witnessed by
`create_order` being extensionally equal to the specification-side
recursion `place_order_spec`. -/
theorem webshop_C5 (db : Db) (uid : Nat) (items : List ItemIn) :
    create_order db uid items = place_order_spec db uid items :=
  create_order_eq_place_order_spec db uid items

theorem specValidate_err_run (ps0 : List ProductRec) (items : List ItemIn) :
    ∀ (done : List ItemIn) (total : ℚ) (acc : List PendingItem),
      (∃ k it, items.get? k = some it ∧ ∃ p,
        firstProductIn ps0 it.product_id = some p ∧
        p.stock - consumed it.product_id (done ++ items.take k) < it.quantity) →
      ∃ e, specValidate ps0 done items total acc = .error e := by
  induction items with
  | nil =>
    intro done total acc hx
    obtain ⟨k, it, hk, _⟩ := hx
    simp at hk
  | cons it0 rest ih =>
    intro done total acc hx
    obtain ⟨k, it, hk, p, hfp, hlt⟩ := hx
    rw [specValidate]
    cases hf : firstProductIn ps0 it0.product_id with
    | none => exact ⟨_, rfl⟩
    | some p0 =>
      dsimp only
      by_cases hst : p0.stock - consumed it0.product_id done < it0.quantity
      · rw [if_pos hst]
        exact ⟨_, rfl⟩
      · rw [if_neg hst]
        refine ih (done ++ [it0]) _ _ ?_
        cases k with
        | zero =>
          exfalso
          have hk2 : some it0 = some it := hk
          injection hk2 with hk2
          subst hk2
          rw [hf] at hfp
          injection hfp with hfp
          subst hfp
          simp only [List.take_zero, List.append_nil] at hlt
          exact hst hlt
        | succ k =>
          have hk2 : rest.get? k = some it := hk
          refine ⟨k, it, hk2, p, hfp, ?_⟩
          have harr : done ++ (it0 :: rest).take (k + 1) = (done ++ [it0]) ++ rest.take k := by
            rw [List.take_succ_cons]
            simp
          rw [harr] at hlt
          exact hlt

theorem specValidate_err_type (ps0 : List ProductRec) (items : List ItemIn) :
    ∀ (done : List ItemIn) (total : ℚ) (acc : List PendingItem) (e : ApiError),
      (∀ it ∈ items, (firstProductIn ps0 it.product_id).isSome = true) →
      specValidate ps0 done items total acc = .error e →
      e = ⟨400, "Insufficient stock"⟩ := by
  induction items with
  | nil =>
    intro done total acc e _ h
    rw [specValidate] at h
    exact absurd h (by simp)
  | cons it rest ih =>
    intro done total acc e hall h
    rw [specValidate] at h
    cases hf : firstProductIn ps0 it.product_id with
    | none =>
      have hs := hall it (List.mem_cons_self _ _)
      rw [hf] at hs
      simp at hs
    | some p =>
      rw [hf] at h
      dsimp only at h
      by_cases hst : p.stock - consumed it.product_id done < it.quantity
      · rw [if_pos hst] at h
        injection h with h
        exact h.symm
      · rw [if_neg hst] at h
        exact ih (done ++ [it]) _ _ e (fun x hx => hall x (List.mem_cons_of_mem _ hx)) h

/-- C2 counterexample: a request can contain a line item whose quantity
exceeds the product's current stock and still fail with a 404
`NotFoundError` rather than the insufficient-stock error, because an
earlier line referencing an absent product is validated first. -/
theorem webshop_C2_counterexample :
    (∃ it ∈ exItems2, ∃ p, firstProductIn exDb2.products it.product_id = some p ∧
      p.stock < it.quantity) ∧
    create_order exDb2 1 exItems2 = .error ⟨404, "Product not found"⟩ ∧
    (⟨404, "Product not found"⟩ : ApiError) ≠ ⟨400, "Insufficient stock"⟩ :=
  ⟨⟨⟨1, 7⟩, by decide, ⟨1, "Widget", 10, 5⟩, rfl, by decide⟩, rfl, by decide⟩

/-- C2 amended: if any line item's quantity exceeds the product's stock
at that line's validation point — the stored stock minus the quantities
consumed by the earlier lines of the same request — order placement
fails and no state change is visible (no stock decrement, no
`Order`/`OrderItem` row); the error is the insufficient-stock one
whenever every referenced product exists, but a 404 for an earlier
line's absent product can preempt it. -/
theorem webshop_C2_amended (db : Db) (uid : Nat) (items : List ItemIn)
    (hx : ∃ k it, items.get? k = some it ∧ ∃ p,
      firstProductIn db.products it.product_id = some p ∧
      p.stock - consumed it.product_id (items.take k) < it.quantity) :
    (∃ e, create_order db uid items = .error e) ∧
    create_order_state db uid items = db ∧
    ((∀ it ∈ items, (firstProductIn db.products it.product_id).isSome = true) →
      create_order db uid items = .error ⟨400, "Insufficient stock"⟩) := by
  obtain ⟨e, he⟩ : ∃ e, specValidate db.products [] items 0 [] = .error e := by
    refine specValidate_err_run db.products items [] 0 [] ?_
    obtain ⟨k, it, hk, p, hfp, hlt⟩ := hx
    exact ⟨k, it, hk, p, hfp, by simpa using hlt⟩
  have hne : items.isEmpty = false := by
    obtain ⟨k, it, hk, _⟩ := hx
    cases items with
    | nil => simp at hk
    | cons a l => rfl
  have hco : create_order db uid items = .error e := by
    rw [create_order_eq_place_order_spec, place_order_spec, hne]
    simp only [Bool.false_eq_true, if_false]
    rw [he]
  refine ⟨⟨e, hco⟩, ?_, ?_⟩
  · rw [create_order_state, hco]
  · intro hall
    have ht : e = ⟨400, "Insufficient stock"⟩ :=
      specValidate_err_type db.products items [] 0 [] e hall he
    rw [hco, ht]

/-- Witness for C2 (amended) at a concrete store: two lines of quantity
3 for the same product against stock 5 — the second line's validation
point has running stock 2, so the request fails with insufficient stock
even though neither line exceeds the stored stock; the store is left
untouched. -/
theorem webshop_C2_witness :
    (∃ e, create_order exDb2 1 [⟨1, 3⟩, ⟨1, 3⟩] = .error e) ∧
    create_order_state exDb2 1 [⟨1, 3⟩, ⟨1, 3⟩] = exDb2 ∧
    ((∀ it ∈ ([⟨1, 3⟩, ⟨1, 3⟩] : List ItemIn),
        (firstProductIn exDb2.products it.product_id).isSome = true) →
      create_order exDb2 1 [⟨1, 3⟩, ⟨1, 3⟩] = .error ⟨400, "Insufficient stock"⟩) :=
  webshop_C2_amended exDb2 1 [⟨1, 3⟩, ⟨1, 3⟩]
    ⟨1, ⟨1, 3⟩, rfl, ⟨1, "Widget", 10, 5⟩, rfl, by decide⟩

end Webshop
